import Mathlib

/-!
Shallow embedding of the Hybrid Retrieval & Context Fusion Engine of
`src/main.py` (FastAPI chatbot backend): entity extraction, graph query,
context formatting/fusion, and the `/ask` endpoint, together with proofs
about the claims of the specification.

External effects (the Neo4j session, the Chroma similarity search and the
OpenAI model call) are modelled as explicit inputs: the environment records
what each external call would return, and the embedded functions reproduce
what the Python code does with those results, including its `try/except`
error handling.
-/

namespace AIChatbot

/-! ## Python string primitives -/

/-- Characters removed by Python `str.strip()` (ASCII whitespace). -/
def isPyWhitespace (c : Char) : Bool :=
  c = ' ' || c = '\t' || c = '\n' || c = '\r' || c = '\x0b' || c = '\x0c'

/-- Python `str.strip()` on a character list: drop whitespace from both ends. -/
def pyStripList (cs : List Char) : List Char :=
  ((cs.dropWhile isPyWhitespace).reverse.dropWhile isPyWhitespace).reverse

/-- Python `str.strip()`. -/
def pyStrip (s : String) : String := ⟨pyStripList s.data⟩

/-- Python `sep.join(parts)`. -/
def joinWith (sep : String) : List String → String
  | [] => ""
  | [a] => a
  | a :: b :: rest => a ++ sep ++ joinWith sep (b :: rest)

/-- Python `str.capitalize()`: first character uppercased, the rest lowercased. -/
def pyCapitalize (s : String) : String :=
  match s.data with
  | [] => ""
  | c :: rest => ⟨c.toUpper :: rest.map Char.toLower⟩

/-! ## Entity extraction (`extract_entity_from_question`, main.py lines 157-178)

The three regular expressions of the Python code are embedded as explicit
left-to-right scanners with Python `re` semantics (leftmost match, greedy
quantifiers, alternation tried in order).
-/

/-- Split a character list at the first occurrence of `q`:
`some (before, after)` when `q` occurs, `none` otherwise. -/
def splitAtChar (q : Char) : List Char → Option (List Char × List Char)
  | [] => none
  | c :: rest =>
    if c = q then some ([], rest)
    else
      match splitAtChar q rest with
      | some (pre, post) => some (c :: pre, post)
      | none => none

/-- The first span matched by the regex `"([^"]+)"|\x27([^\x27]+)\x27`:
scanning left to right, an opening quote character followed by a non-empty
run of other characters and a closing quote of the same kind. -/
def firstQuoted : List Char → Option (List Char)
  | [] => none
  | c :: rest =>
    if c = '"' || c = '\x27' then
      match splitAtChar c rest with
      | some (content, _) => if content = [] then firstQuoted rest else some content
      | none => firstQuoted rest
    else firstQuoted rest

/-- The character class `[A-Z]` of the Python regexes. -/
def isUpperAZ (c : Char) : Bool := 'A' ≤ c && c ≤ 'Z'

/-- The character class `[A-Za-z0-9 &\-]` of the Python regexes. -/
def isEntityChar (c : Char) : Bool :=
  ('A' ≤ c && c ≤ 'Z') || ('a' ≤ c && c ≤ 'z') || ('0' ≤ c && c ≤ '9') ||
  c = ' ' || c = '&' || c = '-'

/-- Match the group `[A-Z][A-Za-z0-9 &\-]{min,}` at the head of the list:
an uppercase letter followed by a greedy run of at least `min` class
characters. -/
def upperRunAt (min : Nat) : List Char → Option (List Char)
  | [] => none
  | c :: rest =>
    if isUpperAZ c then
      if min ≤ (rest.takeWhile isEntityChar).length then
        some (c :: rest.takeWhile isEntityChar)
      else none
    else none

/-- Match `(?:in|of) ([A-Z][A-Za-z0-9 &\-]+)` anchored at the head of the list. -/
def inOfGroupAt : List Char → Option (List Char)
  | 'i' :: 'n' :: ' ' :: tail => upperRunAt 1 tail
  | 'o' :: 'f' :: ' ' :: tail => upperRunAt 1 tail
  | _ => none

/-- Python `re.search` for `(?:in|of) ([A-Z][A-Za-z0-9 &\-]+)`: leftmost match wins. -/
def searchInOf : List Char → Option (List Char)
  | [] => none
  | c :: rest =>
    match inOfGroupAt (c :: rest) with
    | some g => some g
    | none => searchInOf rest

/-- Python `re.search` for `([A-Z][A-Za-z0-9 &\-]{5,})`: leftmost match wins. -/
def searchCapRun : List Char → Option (List Char)
  | [] => none
  | c :: rest =>
    match upperRunAt 5 (c :: rest) with
    | some g => some g
    | none => searchCapRun rest

/-- Function `extract_entity_from_question` (main.py lines 157-178): first quoted
span, else `in`/`of` pattern, else long capitalized run, else the whole
question; the returned value is always stripped. -/
def extract_entity_from_question (question : String) : String :=
  match firstQuoted question.data with
  | some span => ⟨pyStripList span⟩
  | none =>
    match searchInOf question.data with
    | some g => ⟨pyStripList g⟩
    | none =>
      match searchCapRun question.data with
      | some g => ⟨pyStripList g⟩
      | none => ⟨pyStripList question.data⟩

/-! ## Graph retrieval (`query_graph_database`, main.py lines 79-139)

The Neo4j store is modelled as lists of named, labelled nodes and directed
edges; the two Cypher queries (`MATCH (n) WHERE toLower(n.name) CONTAINS
toLower($search_term) ... LIMIT 5` and the undirected one-hop edge query
`MATCH (n)-[r]-(m) ... LIMIT 10`) become filter/take over those lists.
The environment also records whether the external calls succeed, so the
`try/except` of the Python function can be reproduced faithfully: an
exception raised mid-loop leaves the results accumulated so far in place.
-/

/-- A node of the graph store: `name` property and label list. -/
structure GraphNodeRec where
  name : String
  labels : List String
deriving DecidableEq

/-- A directed relationship of the graph store. -/
structure GraphEdgeRec where
  source : String
  relType : String
  target : String
deriving DecidableEq

/-- The graph store contents. -/
structure GraphDB where
  nodes : List GraphNodeRec
  edges : List GraphEdgeRec
deriving DecidableEq

/-- One entry of `results['direct_matches']`: dict with keys `name`, `type`. -/
structure DirectMatch where
  name : String
  type : String
deriving DecidableEq

/-- One entry of `results['connected_nodes']`. -/
structure ConnectedNode where
  source : String
  relationship : String
  target : String
  target_type : String
deriving DecidableEq

/-- The `results` dict built by `query_graph_database`. -/
structure GraphResults where
  direct_matches : List DirectMatch
  connected_nodes : List ConnectedNode
deriving DecidableEq

/-- Test whether `needle` is a prefix of `hay` (on character lists). -/
def startsWithCL : List Char → List Char → Bool
  | [], _ => true
  | _ :: _, [] => false
  | a :: as, b :: bs => a = b && startsWithCL as bs

/-- Test whether `needle` occurs contiguously inside `hay` (substring containment). -/
def infixOfCL (needle : List Char) : List Char → Bool
  | [] => needle.isEmpty
  | c :: rest => startsWithCL needle (c :: rest) || infixOfCL needle rest

/-- Cypher `toLower(name) CONTAINS toLower(term)` (case-insensitive
substring match). -/
def nameMatches (name term : String) : Bool :=
  infixOfCL (term.data.map Char.toLower) (name.data.map Char.toLower)

/-- Labels of the node called `name`, as `labels(m)` returns them. -/
def labelsOf (db : GraphDB) (name : String) : List String :=
  match db.nodes.find? (fun n => n.name = name) with
  | some n => n.labels
  | none => []

/-- A row returned by the connected-nodes Cypher query. -/
structure ConnRow where
  source : String
  relType : String
  target : String
  targetLabels : List String
deriving DecidableEq

/-- Rows of `MATCH (n)-[r]-(m) WHERE toLower(n.name) CONTAINS
toLower($search_term)`: each stored edge is traversable in both
directions, and each direction whose `n` endpoint matches contributes a
row `(n.name, type(r), m.name, labels(m))`. -/
def edgeRows (db : GraphDB) (term : String) : List ConnRow :=
  (db.edges.map (fun e =>
    (if nameMatches e.source term then
      [ConnRow.mk e.source e.relType e.target (labelsOf db e.target)] else []) ++
    (if nameMatches e.target term then
      [ConnRow.mk e.target e.relType e.source (labelsOf db e.source)] else []))).flatten

/-- The `for record in direct_matches` loop: appends
`{'name': node['name'], 'type': record['type'][0]}` per row; a node with an
empty label list makes `record['type'][0]` raise `IndexError`, aborting the
loop with the entries appended so far (second component `true` marks that
the exception was raised). -/
def build_direct_matches : List GraphNodeRec → List DirectMatch × Bool
  | [] => ([], false)
  | n :: rest =>
    match n.labels with
    | [] => ([], true)
    | t :: _ =>
      let p := build_direct_matches rest
      (DirectMatch.mk n.name t :: p.1, p.2)

/-- The `for record in connected_nodes` loop: appends one entry per row;
`record['target_type'][0]` raises on an empty label list, aborting the loop
with the entries appended so far. -/
def build_connected_nodes : List ConnRow → List ConnectedNode × Bool
  | [] => ([], false)
  | r :: rest =>
    match r.targetLabels with
    | [] => ([], true)
    | t :: _ =>
      let p := build_connected_nodes rest
      (ConnectedNode.mk r.source r.relType r.target t :: p.1, p.2)

/-- Environment of one `query_graph_database` call: the store contents and
whether each external Neo4j call succeeds (`connected` is the
`session`/`RETURN 1` connectivity test, the two `*_query_fails` flags are
failures of the respective `session.run` calls). -/
structure GraphEnv where
  connected : Bool
  db : GraphDB
  direct_query_fails : Bool
  connected_query_fails : Bool
deriving DecidableEq

/-- Function `query_graph_database` (main.py lines 79-139): `results` starts as two
empty lists; everything runs inside one `try`, and any exception is caught
and the `results` accumulated so far returned. -/
def query_graph_database (env : GraphEnv) (query : String) : GraphResults :=
  if !env.connected then ⟨[], []⟩
  else if env.direct_query_fails then ⟨[], []⟩
  else
    let dp := build_direct_matches
      ((env.db.nodes.filter (fun n => nameMatches n.name query)).take 5)
    if dp.2 then ⟨dp.1, []⟩
    else if env.connected_query_fails then ⟨dp.1, []⟩
    else ⟨dp.1, (build_connected_nodes ((edgeRows env.db query).take 10)).1⟩

/-! ## Graph context formatting (`format_graph_context`, main.py lines 141-155) -/

/-- Python `rel['relationship'].replace('_', ' ').capitalize()`. -/
def humanizeRel (r : String) : String :=
  pyCapitalize ⟨r.data.map (fun c => if c = '_' then ' ' else c)⟩

/-- One line of the direct-matches block: `"  - <type>: <name>"`. -/
def directMatchLine (m : DirectMatch) : String :=
  "  - " ++ m.type ++ ": " ++ m.name

/-- One line of the related-information block. -/
def connectedNodeLine (r : ConnectedNode) : String :=
  "  - " ++ r.source ++ " " ++ humanizeRel r.relationship ++ " " ++ r.target
    ++ " (" ++ r.target_type ++ ")"

/-- Function `format_graph_context` (main.py lines 141-155): build `context_parts`
and join with `"\n"`, or return `""` when both sections are empty. -/
def format_graph_context (g : GraphResults) : String :=
  let p1 : List String :=
    if g.direct_matches.isEmpty then []
    else "Direct matches found:" :: g.direct_matches.map directMatchLine
  let p2 : List String :=
    if g.connected_nodes.isEmpty then []
    else "\nRelated information:" :: g.connected_nodes.map connectedNodeLine
  if (p1 ++ p2).isEmpty then "" else joinWith "\n" (p1 ++ p2)

/-! ## Context fusion and the `/ask` endpoint (main.py lines 180-224) -/

/-- A document returned by `vectorstore.similarity_search`: the code reads
only `page_content`; `source` carries the source-URL metadata the store
attaches to each chunk (never read by the code). -/
structure RetrievedDoc where
  page_content : String
  source : String
deriving DecidableEq

/-- Line 186: `"\n".join([doc.page_content for doc in vector_docs]) if
vector_docs else ""`. -/
def vector_context_of (docs : List RetrievedDoc) : String :=
  if docs.isEmpty then "" else joinWith "\n" (docs.map RetrievedDoc.page_content)

/-- Lines 196-200: the combined context. Starting from `""`, the vector
block (`"Text-based information:\n"` + joined chunks + `"\n\n"`) is
appended when the vector context is non-empty, then the graph block
(`"Graph-based information:\n"` + graph context) when the graph context is
non-empty. -/
def combined_context_of (docs : List RetrievedDoc) (g : GraphResults) : String :=
  (if vector_context_of docs = "" then ""
   else "Text-based information:\n" ++ vector_context_of docs ++ "\n\n") ++
  (if format_graph_context g = "" then ""
   else "Graph-based information:\n" ++ format_graph_context g)

/-- Function `get_mock_response` (main.py lines 75-77). -/
def get_mock_response (question context : String) : String :=
  "Here\x27s what I found about \x27" ++ question ++ "\x27:\n\n" ++ context

/-- The JSON object returned by the `/ask` endpoint, as a record over the
keys the code (or the spec) mentions. The code only ever produces
`{"answer": ...}` or `{"error": ...}`; a key the code does not set is
absent from the response, i.e. `none` here. -/
structure ApiResponse where
  answer : Option String := none
  error : Option String := none
  sources : Option (List String) := none
  degraded : Option Bool := none
deriving DecidableEq

/-- Environment of one `/ask` request: what each external call would
return. `vector_error` models `vectorstore.similarity_search` raising (the
only call whose exception reaches the outer `except` of lines 222-224);
`openai_model_ok` is `openai_model is not None`; `api_key` is the
`OPENAI_API_KEY` value (`none` when unset); `model_result` is the outcome
of `openai_model.predict`. -/
structure AskEnv where
  vector_error : Option String
  vector_docs : List RetrievedDoc
  graph : GraphEnv
  openai_model_ok : Bool
  api_key : Option String
  model_result : Except String String

/-- Line 205: `if openai_model and api_key and len(api_key) > 20:`. -/
def model_branch_taken (env : AskEnv) : Bool :=
  env.openai_model_ok &&
    (match env.api_key with
     | none => false
     | some k => !(k = "") && decide (k.length > 20))

/-- Function `ask_question` (main.py lines 180-224): the full request pipeline.
A `similarity_search` exception is caught by the outer `except` and
returned as `{"error": ...}`; otherwise the contexts are built, the
no-context answer short-circuits, and the model branch falls back to
`get_mock_response` when the model is unavailable or `predict` raises. -/
def ask_question (env : AskEnv) (question : String) : ApiResponse :=
  match env.vector_error with
  | some e => { error := some e }
  | none =>
    let entity := extract_entity_from_question question
    let graph_results := query_graph_database env.graph entity
    let combined := combined_context_of env.vector_docs graph_results
    if combined = "" then
      { answer := some "Sorry, I couldn\x27t find any relevant information." }
    else if model_branch_taken env then
      match env.model_result with
      | Except.ok resp => { answer := some (pyStrip resp) }
      | Except.error _ => { answer := some (get_mock_response question combined) }
    else { answer := some (get_mock_response question combined) }

/-! ## Helper lemmas -/

/-- Joining a list with a non-empty tail splits off the head. -/
theorem joinWith_cons (sep a : String) (l : List String) (h : l ≠ []) :
    joinWith sep (a :: l) = a ++ sep ++ joinWith sep l := by
  cases l with
  | nil => exact absurd rfl h
  | cons b rest => rfl

/-- Joining the concatenation of two non-empty lists splits at the boundary. -/
theorem joinWith_append (sep : String) (l1 l2 : List String) (h1 : l1 ≠ []) (h2 : l2 ≠ []) :
    joinWith sep (l1 ++ l2) = joinWith sep l1 ++ sep ++ joinWith sep l2 := by
  induction l1 with
  | nil => exact absurd rfl h1
  | cons a t ih =>
    cases t with
    | nil =>
      cases l2 with
      | nil => exact absurd rfl h2
      | cons b r => simp [joinWith]
    | cons c t' =>
      have hrec := ih (by simp)
      have hne : (c :: t') ++ l2 ≠ [] := by simp
      calc joinWith sep ((a :: c :: t') ++ l2)
          = joinWith sep (a :: ((c :: t') ++ l2)) := by simp
        _ = a ++ sep ++ joinWith sep ((c :: t') ++ l2) := joinWith_cons sep a _ hne
        _ = a ++ sep ++ (joinWith sep (c :: t') ++ sep ++ joinWith sep l2) := by rw [hrec]
        _ = (a ++ sep ++ joinWith sep (c :: t')) ++ sep ++ joinWith sep l2 := by
              simp [String.append_assoc]
        _ = joinWith sep (a :: c :: t') ++ sep ++ joinWith sep l2 := by
              rw [joinWith_cons sep a (c :: t') (by simp)]

/-- The direct-match loop never produces more entries than it consumes rows. -/
theorem build_direct_matches_length (l : List GraphNodeRec) :
    (build_direct_matches l).1.length ≤ l.length := by
  induction l with
  | nil => simp [build_direct_matches]
  | cons n rest ih =>
    cases h : n.labels with
    | nil => simp [build_direct_matches, h]
    | cons t ts =>
      simp only [build_direct_matches, h, List.length_cons]
      omega

/-- The connected-node loop never produces more entries than it consumes rows. -/
theorem build_connected_nodes_length (l : List ConnRow) :
    (build_connected_nodes l).1.length ≤ l.length := by
  induction l with
  | nil => simp [build_connected_nodes]
  | cons r rest ih =>
    cases h : r.targetLabels with
    | nil => simp [build_connected_nodes, h]
    | cons t ts =>
      simp only [build_connected_nodes, h, List.length_cons]
      omega

/-- A group produced by `upperRunAt` starts with an uppercase letter. -/
theorem upperRunAt_shape (m : Nat) (cs g : List Char) (h : upperRunAt m cs = some g) :
    ∃ c rest, g = c :: rest ∧ isUpperAZ c = true := by
  cases cs with
  | nil => simp [upperRunAt] at h
  | cons c rest =>
    by_cases hu : isUpperAZ c
    · by_cases hl : m ≤ (rest.takeWhile isEntityChar).length
      · refine ⟨c, rest.takeWhile isEntityChar, ?_, hu⟩
        simp [upperRunAt, hu, hl] at h
        exact h.symm
      · simp [upperRunAt, hu, hl] at h
    · simp [upperRunAt, hu] at h

/-- A group produced by `inOfGroupAt` starts with an uppercase letter. -/
theorem inOfGroupAt_shape (cs g : List Char) (h : inOfGroupAt cs = some g) :
    ∃ c rest, g = c :: rest ∧ isUpperAZ c = true := by
  unfold inOfGroupAt at h
  split at h
  · exact upperRunAt_shape _ _ _ h
  · exact upperRunAt_shape _ _ _ h
  · simp at h

/-- A group found by `searchInOf` starts with an uppercase letter. -/
theorem searchInOf_shape (cs g : List Char) (h : searchInOf cs = some g) :
    ∃ c rest, g = c :: rest ∧ isUpperAZ c = true := by
  induction cs with
  | nil => simp [searchInOf] at h
  | cons c rest ih =>
    unfold searchInOf at h
    cases hg : inOfGroupAt (c :: rest) with
    | some g2 =>
      rw [hg] at h
      exact inOfGroupAt_shape _ _ (hg.trans (by simpa using h))
    | none =>
      rw [hg] at h
      exact ih h

/-- A group found by `searchCapRun` starts with an uppercase letter. -/
theorem searchCapRun_shape (cs g : List Char) (h : searchCapRun cs = some g) :
    ∃ c rest, g = c :: rest ∧ isUpperAZ c = true := by
  induction cs with
  | nil => simp [searchCapRun] at h
  | cons c rest ih =>
    unfold searchCapRun at h
    cases hg : upperRunAt 5 (c :: rest) with
    | some g2 =>
      rw [hg] at h
      exact upperRunAt_shape _ _ _ (hg.trans (by simpa using h))
    | none =>
      rw [hg] at h
      exact ih h

/-- A non-whitespace member of a list survives `dropWhile isPyWhitespace`. -/
theorem mem_dropWhile_of_not_ws (c : Char) (l : List Char)
    (hc : isPyWhitespace c = false) (hm : c ∈ l) :
    c ∈ l.dropWhile isPyWhitespace := by
  induction l with
  | nil => cases hm
  | cons a t ih =>
    by_cases hpa : isPyWhitespace a
    · simp only [List.dropWhile, hpa]
      rcases List.mem_cons.mp hm with h | h
      · subst h; rw [hc] at hpa; cases hpa
      · exact ih h
    · simpa [List.dropWhile, hpa] using hm

/-- Stripping a list that contains a non-whitespace character leaves it
non-empty. -/
theorem pyStripList_ne_nil (c : Char) (l : List Char)
    (hc : isPyWhitespace c = false) (hm : c ∈ l) :
    pyStripList l ≠ [] := by
  unfold pyStripList
  have h1 := mem_dropWhile_of_not_ws c l hc hm
  have h2 : c ∈ (l.dropWhile isPyWhitespace).reverse := List.mem_reverse.mpr h1
  have h3 := mem_dropWhile_of_not_ws c _ hc h2
  intro hnil
  rw [List.reverse_eq_nil_iff] at hnil
  rw [hnil] at h3
  cases h3

/-- A string built from a non-empty character list is not the empty string. -/
theorem string_mk_ne_empty (l : List Char) (h : l ≠ []) : (⟨l⟩ : String) ≠ "" := by
  intro he
  exact h (congrArg String.data he)

/-- Uppercase ASCII letters are not Python whitespace. -/
theorem upper_not_ws (c : Char) (h : isUpperAZ c = true) : isPyWhitespace c = false := by
  simp only [isUpperAZ, Bool.and_eq_true, decide_eq_true_eq] at h
  obtain ⟨ha, _⟩ := h
  simp only [isPyWhitespace, Bool.or_eq_false_iff, decide_eq_false_iff_not]
  refine ⟨⟨⟨⟨⟨?_, ?_⟩, ?_⟩, ?_⟩, ?_⟩, ?_⟩ <;> intro he <;> subst he <;>
    exact absurd ha (by decide)

/-! ## Claim C8 -/

/-- C8: for every entity string (and every store state and failure
pattern), `query_graph_database` returns at most 5 direct matches and at
most 10 connected edges — the Cypher `LIMIT 5` / `LIMIT 10` caps, preserved
by the loops that copy rows into `results`. -/
theorem claim_C8 (env : GraphEnv) (q : String) :
    (query_graph_database env q).direct_matches.length ≤ 5 ∧
    (query_graph_database env q).connected_nodes.length ≤ 10 := by
  unfold query_graph_database
  by_cases hc : env.connected
  · by_cases hd : env.direct_query_fails
    · simp [hc, hd]
    · have hd5 : (build_direct_matches
          ((env.db.nodes.filter (fun n => nameMatches n.name q)).take 5)).1.length ≤ 5 := by
        refine le_trans (build_direct_matches_length _) ?_
        rw [List.length_take]
        omega
      have hc10 : (build_connected_nodes ((edgeRows env.db q).take 10)).1.length ≤ 10 := by
        refine le_trans (build_connected_nodes_length _) ?_
        rw [List.length_take]
        omega
      by_cases he : (build_direct_matches
          ((env.db.nodes.filter (fun n => nameMatches n.name q)).take 5)).2
      · simpa [hc, hd, he] using hd5
      · by_cases hq : env.connected_query_fails
        · simpa [hc, hd, he, hq] using hd5
        · simp only [hc, hd, he, hq]
          simpa using ⟨hd5, hc10⟩
  · simp [hc]

/-! ## Claim C9 -/

/-- C9 counterexample: an error in the second (connected-nodes) query does
NOT yield the empty result — the direct matches collected by the first
query are kept. Here the store is reachable, the direct-match query
succeeds and finds a node, and the connected-nodes query raises; the
returned result has a non-empty `direct_matches` list, contradicting the
claim that a query error yields a result with both lists empty. -/
theorem claim_C9_counterexample :
    (GraphEnv.mk true (GraphDB.mk [GraphNodeRec.mk "kitkat" ["Recipe"]] [])
        false true).connected_query_fails = true ∧
    query_graph_database
        (GraphEnv.mk true (GraphDB.mk [GraphNodeRec.mk "kitkat" ["Recipe"]] [])
          false true) "kitkat" =
      GraphResults.mk [DirectMatch.mk "kitkat" "Recipe"] [] ∧
    (query_graph_database
        (GraphEnv.mk true (GraphDB.mk [GraphNodeRec.mk "kitkat" ["Recipe"]] [])
          false true) "kitkat").direct_matches ≠ [] := by
  exact ⟨rfl, by decide, by decide⟩

/-- C9 (amended): if the store is unreachable or the direct-match query
errors, `query_graph_database` returns the empty result; errors never
propagate (the function is total), but an error after a successful
direct-match query keeps the already-collected direct matches. -/
theorem claim_C9_amended (env : GraphEnv) (q : String)
    (h : env.connected = false ∨ env.direct_query_fails = true) :
    query_graph_database env q = GraphResults.mk [] [] := by
  unfold query_graph_database
  rcases h with h | h
  · simp [h]
  · by_cases hc : env.connected
    · simp [hc, h]
    · simp [hc]

/-- C9 witness: a concrete unreachable store yields the empty result. -/
theorem claim_C9_witness :
    query_graph_database
      (GraphEnv.mk false (GraphDB.mk [GraphNodeRec.mk "kitkat" ["Recipe"]] [])
        false false) "kitkat" = GraphResults.mk [] [] :=
  claim_C9_amended _ "kitkat" (Or.inl rfl)

/-! ## Claim C10 -/

/-- C10: on the fixed graph result with one direct match (name
`Chocolate Cake`, first label `Recipe`) and nothing else, the formatted
graph context is exactly `"Direct matches found:\n  - Recipe: Chocolate
Cake"`; and in general, whenever `direct_matches` is non-empty, the output
starts with the header line `"Direct matches found:"` followed by one line
`"  - <type>: <name>"` per match, in order. -/
theorem claim_C10 :
    format_graph_context (GraphResults.mk [DirectMatch.mk "Chocolate Cake" "Recipe"] []) =
      "Direct matches found:\n  - Recipe: Chocolate Cake" ∧
    ∀ dms cns, dms ≠ [] → ∃ rest,
      format_graph_context (GraphResults.mk dms cns) =
        "Direct matches found:" ++ "\n" ++ joinWith "\n" (dms.map directMatchLine) ++ rest := by
  constructor
  · rfl
  · intro dms cns hne
    cases dms with
    | nil => exact absurd rfl hne
    | cons d ds =>
      have hsplit : format_graph_context (GraphResults.mk (d :: ds) cns) =
          joinWith "\n" (("Direct matches found:" :: (d :: ds).map directMatchLine) ++
            (if cns.isEmpty then []
             else "\nRelated information:" :: cns.map connectedNodeLine)) := by
        by_cases hcn : cns.isEmpty <;> simp [format_graph_context, hcn]
      by_cases hcn : cns.isEmpty
      · refine ⟨"", ?_⟩
        rw [hsplit]
        simp only [hcn, if_true, List.append_nil]
        rw [joinWith_cons "\n" _ _ (by simp), String.append_empty]
      · refine ⟨"\n" ++ joinWith "\n"
          ("\nRelated information:" :: cns.map connectedNodeLine), ?_⟩
        rw [hsplit]
        simp only [hcn, if_false]
        rw [joinWith_append "\n" _ _ (by simp) (by simp),
          joinWith_cons "\n" _ _ (by simp)]
        simp [String.append_assoc]

/-- C10 witness: instance of the general part of `claim_C10` at a concrete
graph result with one direct match and one connected node. -/
theorem claim_C10_witness :
    ∃ rest, format_graph_context
        (GraphResults.mk [DirectMatch.mk "Aero" "Recipe"]
          [ConnectedNode.mk "Aero" "HAS_INGREDIENT" "Milk" "Ingredient"]) =
      "Direct matches found:\n  - Recipe: Aero" ++ rest := by
  obtain ⟨rest, hr⟩ := claim_C10.2 [DirectMatch.mk "Aero" "Recipe"]
    [ConnectedNode.mk "Aero" "HAS_INGREDIENT" "Milk" "Ingredient"] (by simp)
  exact ⟨rest, hr.trans (by rfl)⟩

/-! ## Claim C1 -/

/-- C1 counterexample: there is no character budget in the code. A single
vector chunk of 66 characters already makes the fused context 92 characters
long, exceeding a configured budget of 50 — and the whole chunk is still
present in the output (nothing was dropped or truncated), contradicting
the claim that the fused context never exceeds `maxChars`. -/
theorem claim_C1_counterexample :
    50 < (combined_context_of
      [RetrievedDoc.mk
        "This single chunk is already longer than a fifty character budget." "http://u"]
      (GraphResults.mk [] [])).length ∧
    infixOfCL
      "This single chunk is already longer than a fifty character budget.".data
      (combined_context_of
        [RetrievedDoc.mk
          "This single chunk is already longer than a fifty character budget." "http://u"]
        (GraphResults.mk [] [])).data = true := by
  exact ⟨by decide, by decide⟩

/-- C1 (amended): the code applies no character budget and never truncates.
The fused context is always the full concatenation of the vector and graph
blocks: its length is exactly the vector context length plus 26 header
characters (when the vector context is non-empty) plus the graph context
length plus 25 header characters (when the graph context is non-empty),
hence unbounded in the inputs. -/
theorem claim_C1_amended (docs : List RetrievedDoc) (g : GraphResults) :
    (combined_context_of docs g).length =
      (if vector_context_of docs = "" then 0 else (vector_context_of docs).length + 26) +
      (if format_graph_context g = "" then 0 else (format_graph_context g).length + 25) := by
  unfold combined_context_of
  by_cases hv : vector_context_of docs = "" <;> by_cases hg : format_graph_context g = ""
  · rw [if_pos hv, if_pos hg, if_pos hv, if_pos hg]
    rfl
  · rw [if_pos hv, if_neg hg, if_pos hv, if_neg hg]
    rw [String.length_append, String.length_append]
    show 0 + (25 + (format_graph_context g).length) = 0 + ((format_graph_context g).length + 25)
    omega
  · rw [if_neg hv, if_pos hg, if_neg hv, if_pos hg]
    rw [String.length_append, String.length_append, String.length_append]
    show 24 + (vector_context_of docs).length + 2 + 0 =
      (vector_context_of docs).length + 26 + 0
    omega
  · rw [if_neg hv, if_neg hg, if_neg hv, if_neg hg]
    rw [String.length_append, String.length_append, String.length_append,
      String.length_append]
    show 24 + (vector_context_of docs).length + 2 +
        (25 + (format_graph_context g).length) = _
    omega

/-! ## Claim C2 -/

set_option maxRecDepth 16384 in
/-- C2 counterexample: with two vector chunks (`alpha`, `beta`) and one
graph direct match, the fused context places the VECTOR block first (it
starts with `"Text-based information:"`) and the graph block second, and
the chunk texts are joined by a single newline: the blank-line-joined form
`"alpha\n\nbeta"` does not occur in the output. Both points contradict the
claim (graph block first; chunks joined by blank lines). -/
theorem claim_C2_counterexample :
    combined_context_of [RetrievedDoc.mk "alpha" "u1", RetrievedDoc.mk "beta" "u2"]
        (GraphResults.mk [DirectMatch.mk "X" "L"] []) =
      "Text-based information:\nalpha\nbeta\n\nGraph-based information:\nDirect matches found:\n  - L: X" ∧
    (combined_context_of [RetrievedDoc.mk "alpha" "u1", RetrievedDoc.mk "beta" "u2"]
        (GraphResults.mk [DirectMatch.mk "X" "L"] [])).take 23 =
      "Text-based information:" ∧
    infixOfCL "alpha\n\nbeta".data
      (combined_context_of [RetrievedDoc.mk "alpha" "u1", RetrievedDoc.mk "beta" "u2"]
        (GraphResults.mk [DirectMatch.mk "X" "L"] [])).data = false := by
  exact ⟨by decide, by decide, by decide⟩

/-- C2 (amended): when both rendered blocks are non-empty, the fused
context places the vector block FIRST under the header
`"Text-based information:"` — the chunk texts joined by single newlines —
followed by one blank line, then the graph block under the header
`"Graph-based information:"`. -/
theorem claim_C2_amended :
    (∀ docs, docs ≠ ([] : List RetrievedDoc) →
      vector_context_of docs = joinWith "\n" (docs.map RetrievedDoc.page_content)) ∧
    (∀ docs g, vector_context_of docs ≠ "" → format_graph_context g ≠ "" →
      combined_context_of docs g =
        "Text-based information:\n" ++ vector_context_of docs ++ "\n\n" ++
        "Graph-based information:\n" ++ format_graph_context g) := by
  constructor
  · intro docs h
    cases docs with
    | nil => exact absurd rfl h
    | cons d ds => rfl
  · intro docs g hv hg
    unfold combined_context_of
    rw [if_neg hv, if_neg hg]
    simp only [String.append_assoc]
    try rfl

/-- C2 witness: instance of `claim_C2_amended` at one concrete chunk and
one concrete direct match. -/
theorem claim_C2_witness :
    combined_context_of [RetrievedDoc.mk "alpha" "http://a"]
        (GraphResults.mk [DirectMatch.mk "X" "L"] []) =
      "Text-based information:\nalpha\n\nGraph-based information:\nDirect matches found:\n  - L: X" := by
  have h := claim_C2_amended.2 [RetrievedDoc.mk "alpha" "http://a"]
    (GraphResults.mk [DirectMatch.mk "X" "L"] []) (by decide) (by decide)
  exact h.trans (by rfl)

/-! ## Claim C3 -/

/-- C3 counterexample: on the fallback path (model not configured,
non-empty context) the response is `{"answer": <template>}` only — the
returned object carries no `degraded` key and no `sources` key, so it does
not satisfy `degraded=true` with an empty sources list as the claim
states. -/
theorem claim_C3_counterexample :
    model_branch_taken (AskEnv.mk none [RetrievedDoc.mk "beta" "u"]
      (GraphEnv.mk false (GraphDB.mk [] []) false false) false none
      (Except.error "x")) = false ∧
    ask_question (AskEnv.mk none [RetrievedDoc.mk "beta" "u"]
        (GraphEnv.mk false (GraphDB.mk [] []) false false) false none
        (Except.error "x")) "Why?" =
      ApiResponse.mk
        (some "Here\x27s what I found about \x27Why?\x27:\n\nText-based information:\nbeta\n\n")
        none none none ∧
    (ask_question (AskEnv.mk none [RetrievedDoc.mk "beta" "u"]
        (GraphEnv.mk false (GraphDB.mk [] []) false false) false none
        (Except.error "x")) "Why?").degraded ≠ some true ∧
    (ask_question (AskEnv.mk none [RetrievedDoc.mk "beta" "u"]
        (GraphEnv.mk false (GraphDB.mk [] []) false false) false none
        (Except.error "x")) "Why?").sources ≠ some [] := by
  exact ⟨rfl, by decide, by decide, by decide⟩

/-- C3 (amended): for every question and non-empty fused context, if the
model branch is not taken (model object missing, key unset/empty/too
short) or the single `predict` call raises, the endpoint returns — with no
retry — exactly `{"answer": "Here's what I found about '<question>':\n\n" +
<fused context>}`; the response carries no `degraded` flag and no
`sources` list. -/
theorem claim_C3_amended (env : AskEnv) (q : String)
    (hv : env.vector_error = none)
    (hc : combined_context_of env.vector_docs
      (query_graph_database env.graph (extract_entity_from_question q)) ≠ "")
    (hm : model_branch_taken env = false ∨ ∃ e, env.model_result = Except.error e) :
    ask_question env q =
      ApiResponse.mk
        (some (get_mock_response q (combined_context_of env.vector_docs
          (query_graph_database env.graph (extract_entity_from_question q)))))
        none none none := by
  simp only [ask_question, hv]
  rw [if_neg hc]
  rcases hm with hm | ⟨e, he⟩
  · rw [if_neg (by simp [hm])]
  · by_cases hb : model_branch_taken env
    · rw [if_pos hb, he]
    · rw [if_neg hb]

/-- C3 witness: instance of `claim_C3_amended` with a disabled model and a
concrete chunk. -/
theorem claim_C3_witness :
    ask_question (AskEnv.mk none [RetrievedDoc.mk "alpha" "u"]
        (GraphEnv.mk false (GraphDB.mk [] []) false false) false none
        (Except.error "boom")) "What is KitKat?" =
      ApiResponse.mk
        (some "Here\x27s what I found about \x27What is KitKat?\x27:\n\nText-based information:\nalpha\n\n")
        none none none := by
  have h := claim_C3_amended (AskEnv.mk none [RetrievedDoc.mk "alpha" "u"]
    (GraphEnv.mk false (GraphDB.mk [] []) false false) false none
    (Except.error "boom")) "What is KitKat?" rfl (by decide) (Or.inl rfl)
  exact h.trans (by rfl)

/-! ## Claim C4 -/

/-- C4 counterexample: on empty retrieval the response is exactly
`{"answer": "Sorry, I couldn't find any relevant information."}` — it has
no `degraded` key and no `sources` key, so it does not carry
`degraded=false` with an empty sources list as the claim states. -/
theorem claim_C4_counterexample :
    (ask_question (AskEnv.mk none []
        (GraphEnv.mk false (GraphDB.mk [] []) false false) false none
        (Except.error "e")) "hi").answer =
      some "Sorry, I couldn\x27t find any relevant information." ∧
    (ask_question (AskEnv.mk none []
        (GraphEnv.mk false (GraphDB.mk [] []) false false) false none
        (Except.error "e")) "hi").degraded ≠ some false ∧
    (ask_question (AskEnv.mk none []
        (GraphEnv.mk false (GraphDB.mk [] []) false false) false none
        (Except.error "e")) "hi").sources ≠ some [] := by
  exact ⟨by decide, by decide, by decide⟩

/-- C4 (amended): with both retrieval sources empty the fused context is
the empty string, and on an empty fused context the endpoint returns
exactly `{"answer": "Sorry, I couldn't find any relevant information."}`,
independently of the model configuration and of what the model would
return (no model call is attempted); the response carries no `degraded`
flag and no `sources` list. -/
theorem claim_C4_amended :
    combined_context_of [] (GraphResults.mk [] []) = "" ∧
    ∀ (env : AskEnv) (q : String) (mr : Except String String),
      env.vector_error = none →
      combined_context_of env.vector_docs
        (query_graph_database env.graph (extract_entity_from_question q)) = "" →
      ask_question env q =
        ApiResponse.mk (some "Sorry, I couldn\x27t find any relevant information.")
          none none none ∧
      ask_question (AskEnv.mk none env.vector_docs env.graph env.openai_model_ok
        env.api_key mr) q = ask_question env q := by
  refine ⟨rfl, ?_⟩
  intro env q mr hv hc
  constructor
  · simp only [ask_question, hv]
    rw [if_pos hc]
  · simp only [ask_question, hv]
    rw [if_pos hc, if_pos hc]

/-- C4 witness: instance of `claim_C4_amended` with empty retrieval and a
fully configured model whose answer is nevertheless never used. -/
theorem claim_C4_witness :
    ask_question (AskEnv.mk none []
        (GraphEnv.mk true (GraphDB.mk [] []) false false) true
        (some "sk-abcdefghijklmnopqrstuv") (Except.ok "MODEL ANSWER")) "hello" =
      ApiResponse.mk (some "Sorry, I couldn\x27t find any relevant information.")
        none none none :=
  (claim_C4_amended.2 (AskEnv.mk none []
    (GraphEnv.mk true (GraphDB.mk [] []) false false) true
    (some "sk-abcdefghijklmnopqrstuv") (Except.ok "MODEL ANSWER")) "hello"
    (Except.error "ignored") rfl (by decide)).1

/-! ## Claim C5 -/

/-- C5 counterexample: on a successful model call the response is
`{"answer": <trimmed model output>}` only — it carries no `sources` key at
all, even though the retrieved chunk has a source URL (`http://src`), so
the response surface does not carry a sources sequence alongside the
answer text as the claim states. -/
theorem claim_C5_counterexample :
    ask_question (AskEnv.mk none [RetrievedDoc.mk "delta" "http://src"]
        (GraphEnv.mk false (GraphDB.mk [] []) false false) true
        (some "sk-zyxwvutsrqponmlkjihgf") (Except.ok " out ")) "query" =
      ApiResponse.mk (some "out") none none none ∧
    (ask_question (AskEnv.mk none [RetrievedDoc.mk "delta" "http://src"]
        (GraphEnv.mk false (GraphDB.mk [] []) false false) true
        (some "sk-zyxwvutsrqponmlkjihgf") (Except.ok " out ")) "query").sources =
      none ∧
    (ask_question (AskEnv.mk none [RetrievedDoc.mk "delta" "http://src"]
        (GraphEnv.mk false (GraphDB.mk [] []) false false) true
        (some "sk-zyxwvutsrqponmlkjihgf") (Except.ok " out ")) "query").sources ≠
      some ["http://src"] := by
  exact ⟨by decide, by decide, by decide⟩

/-- C5 (amended): for every request whose model invocation succeeds (model
branch taken, `predict` returns), the response is exactly
`{"answer": <trimmed model output>}`; no `sources` key (and no `degraded`
key) is present in the response. -/
theorem claim_C5_amended (env : AskEnv) (q out : String)
    (hv : env.vector_error = none)
    (hc : combined_context_of env.vector_docs
      (query_graph_database env.graph (extract_entity_from_question q)) ≠ "")
    (hb : model_branch_taken env = true)
    (ho : env.model_result = Except.ok out) :
    ask_question env q = ApiResponse.mk (some (pyStrip out)) none none none := by
  simp only [ask_question, hv]
  rw [if_neg hc, if_pos hb, ho]

/-- C5 witness: instance of `claim_C5_amended` at a concrete environment;
the model output `"  The answer.  "` comes back trimmed. -/
theorem claim_C5_witness :
    ask_question (AskEnv.mk none [RetrievedDoc.mk "gamma" "http://x"]
        (GraphEnv.mk false (GraphDB.mk [] []) false false) true
        (some "sk-abcdefghijklmnopqrstuv") (Except.ok "  The answer.  ")) "q" =
      ApiResponse.mk (some "The answer.") none none none := by
  have h := claim_C5_amended (AskEnv.mk none [RetrievedDoc.mk "gamma" "http://x"]
    (GraphEnv.mk false (GraphDB.mk [] []) false false) true
    (some "sk-abcdefghijklmnopqrstuv") (Except.ok "  The answer.  ")) "q"
    "  The answer.  " rfl (by decide) (by decide) rfl
  exact h.trans (by rfl)

/-! ## Claim C6 -/

/-- C6: entity extraction follows the strict priority order, first matching
rule winning: (1) if the question contains a quoted substring (single or
double quotes), the first non-empty quoted span is returned trimmed,
regardless of surrounding text; else (2) if it contains `in X`/`of X` with
`X` an uppercase letter followed by one or more characters from
`[A-Za-z0-9 &-]`, that `X` is returned trimmed; else (3) if it contains a
run of 6 or more characters starting with an uppercase letter in that
class, that run is returned trimmed; else (4) the whole question is
returned trimmed. Each rule is stated through the scanner embedding the
corresponding regular expression. -/
theorem claim_C6 (q : String) :
    (∀ s, firstQuoted q.data = some s →
      extract_entity_from_question q = (⟨pyStripList s⟩ : String)) ∧
    (firstQuoted q.data = none → ∀ g, searchInOf q.data = some g →
      extract_entity_from_question q = (⟨pyStripList g⟩ : String)) ∧
    (firstQuoted q.data = none → searchInOf q.data = none →
      ∀ g, searchCapRun q.data = some g →
      extract_entity_from_question q = (⟨pyStripList g⟩ : String)) ∧
    (firstQuoted q.data = none → searchInOf q.data = none →
      searchCapRun q.data = none →
      extract_entity_from_question q = (⟨pyStripList q.data⟩ : String)) := by
  refine ⟨?_, ?_, ?_, ?_⟩
  · intro s hs
    simp only [extract_entity_from_question, hs]
  · intro h1 g hg
    simp only [extract_entity_from_question, h1, hg]
  · intro h1 h2 g hg
    simp only [extract_entity_from_question, h1, h2, hg]
  · intro h1 h2 h3
    simp only [extract_entity_from_question, h1, h2, h3]

/-- C6 witness: rule 1 on a concrete question with a single-quoted span. -/
theorem claim_C6_witness :
    extract_entity_from_question "Tell me about \x27KitKat\x27" = "KitKat" := by
  have h := (claim_C6 "Tell me about \x27KitKat\x27").1 "KitKat".data (by decide)
  exact h.trans (by rfl)

/-! ## Claim C7 -/

/-- C7 counterexample: the extractor is not always non-empty — on a
whitespace-only question every rule fails and the fallback
`question.strip()` is the empty string. -/
theorem claim_C7_counterexample :
    extract_entity_from_question "   " = "" := by decide

/-- C7 (amended): `extract_entity_from_question` is a total function (it is
defined for every string and, being pure, two runs on the same input give
the same output), but its result can be empty; it is non-empty whenever
the question contains no quoted span and strips to a non-empty string. -/
theorem claim_C7_amended (q : String)
    (h1 : firstQuoted q.data = none) (h2 : pyStrip q ≠ "") :
    extract_entity_from_question q ≠ "" := by
  simp only [extract_entity_from_question, h1]
  cases hio : searchInOf q.data with
  | some g =>
    obtain ⟨c, rest, rfl, hcup⟩ := searchInOf_shape _ _ hio
    exact string_mk_ne_empty _
      (pyStripList_ne_nil c _ (upper_not_ws c hcup) (by simp))
  | none =>
    cases hcap : searchCapRun q.data with
    | some g =>
      obtain ⟨c, rest, rfl, hcup⟩ := searchCapRun_shape _ _ hcap
      exact string_mk_ne_empty _
        (pyStripList_ne_nil c _ (upper_not_ws c hcup) (by simp))
    | none => exact h2

/-- C7 witness: a concrete question with no quoted span and non-whitespace
content yields a non-empty entity. -/
theorem claim_C7_witness :
    extract_entity_from_question "hello world" ≠ "" :=
  claim_C7_amended "hello world" (by decide) (by decide)

end AIChatbot
